import Mathlib

/-!
# Verification of the axhal interrupt/timer HAL

Shallow embedding of the interrupt-and-timer hardware-abstraction layer:
the architecture-neutral handler table layer (`src/irq.rs`), the RISC-V
trap-cause driver (`src/platform/riscv64_qemu_virt/irq.rs`), and the
aarch64 generic timer plus GICv3 driver
(`src/platform/aarch64_common/generic_timer.rs`, `gic.rs`).

Machine integers are modelled as `Nat` with explicit wrap where overflow
matters; fatal conditions are modelled with an explicit `Outcome` type;
side effects (table writes, controller unmask calls, handler invocations,
warning diagnostics) are modelled as an explicit event trace.
-/

set_option autoImplicit false

namespace Axhal

/-- Bit width of `usize` on both supported targets (riscv64, aarch64). -/
def USIZE_BITS : Nat := 64

/-- The maximum number of IRQs (`MAX_IRQ_COUNT`, 1024 on both platforms). -/
def MAX_IRQ_COUNT : Nat := 1024

/-- Result of a computation that may hit a fatal condition
(`panic!` / `unimplemented!` / `.unwrap()` on `None` in the source). -/
inductive Outcome (α : Type) where
  | ok : α → Outcome α
  | fatal : Outcome α
  deriving DecidableEq

/-- Observable side effects of the common IRQ layer, in program order. -/
inductive Event (H : Type) where
  | tableInstall : Nat → H → Event H
  | setEnable : Nat → Bool → Event H
  | invoke : H → Event H
  | warn : Event H
  deriving DecidableEq

/-- Modelled from the spec: the `handler_table` crate's
`HandlerTable<MAX_IRQ_COUNT>` (the crate is a dependency whose source is
not under `src/`). Per the spec it is "an array of `MAX_IRQ_COUNT`
optional handler slots, indexed by interrupt line number". -/
structure HandlerTable (H : Type) where
  slots : Nat → Option H

/-- `HandlerTable::new()`: all slots empty. -/
def HandlerTable.new {H : Type} : HandlerTable H := ⟨fun _ => none⟩

/-- Modelled from the spec: `register(line, handler) -> bool` "fails
(returns false) if `line` is out of range or a handler is already
installed at `line`; otherwise installs `handler` and returns true". -/
def HandlerTable.register_handler {H : Type} (t : HandlerTable H) (i : Nat) (h : H) :
    Bool × HandlerTable H :=
  if i < MAX_IRQ_COUNT then
    match t.slots i with
    | none => (true, ⟨Function.update t.slots i (some h)⟩)
    | some _ => (false, t)
  else (false, t)

/-- Modelled from the spec: `dispatch(line) -> bool` "if a handler is
installed at `line`, invokes it and returns true; otherwise returns false
without side effects". The second component is the list of handlers
invoked by the call. -/
def HandlerTable.handle {H : Type} (t : HandlerTable H) (i : Nat) : Bool × List H :=
  match t.slots i with
  | some h => (true, [h])
  | none => (false, [])

/-- State of the architecture-neutral layer (`src/irq.rs`): the static
`IRQ_HANDLER_TABLE` plus the trace of observable effects so far. -/
structure CommonState (H : Type) where
  table : HandlerTable H
  trace : List (Event H)

/-- `dispatch_irq_common` (src/irq.rs): look up the line in
`IRQ_HANDLER_TABLE`; invoke the handler when present, otherwise emit the
"Unhandled IRQ" warning. -/
def dispatch_irq_common {H : Type} (s : CommonState H) (irq_num : Nat) : CommonState H :=
  match s.table.handle irq_num with
  | (true, inv) => { s with trace := s.trace ++ inv.map Event.invoke }
  | (false, _) => { s with trace := s.trace ++ [Event.warn] }

/-- `register_handler_common` (src/irq.rs): range-check the line, try the
table registration, and only on success call `set_enable(irq_num, true)`
(recorded as a `setEnable` event strictly after the `tableInstall`
event); on failure emit the warning and return `false`. -/
def register_handler_common {H : Type} (s : CommonState H) (irq_num : Nat) (h : H) :
    Bool × CommonState H :=
  if irq_num < MAX_IRQ_COUNT then
    match s.table.register_handler irq_num h with
    | (true, t) =>
        (true, { table := t,
                 trace := s.trace ++ [Event.tableInstall irq_num h,
                                      Event.setEnable irq_num true] })
    | (false, _) => (false, { s with trace := s.trace ++ [Event.warn] })
  else (false, { s with trace := s.trace ++ [Event.warn] })

/-! ## RISC-V trap-cause driver (`src/platform/riscv64_qemu_virt/irq.rs`) -/

/-- `Interrupt` bit in `scause`: `1 << (usize::BITS - 1)`. -/
def INTC_IRQ_BASE : Nat := 2 ^ (USIZE_BITS - 1)

/-- Supervisor software interrupt in `scause`. -/
def S_SOFT : Nat := INTC_IRQ_BASE + 1

/-- Supervisor timer interrupt in `scause`. -/
def S_TIMER : Nat := INTC_IRQ_BASE + 5

/-- Supervisor external interrupt in `scause`. -/
def S_EXT : Nat := INTC_IRQ_BASE + 9

/-- The timer IRQ number on RISC-V (`TIMER_IRQ_NUM = S_TIMER`). -/
def TIMER_IRQ_NUM : Nat := S_TIMER

/-- RISC-V driver state: the `TIMER_HANDLER` static (a `LazyInit` cell,
modelled from the spec as an at-most-once-initialized optional slot) plus
the common layer's state. -/
structure RvState (H : Type) where
  timer_handler : Option H
  common : CommonState H

/-- RISC-V `register_handler`: `with_cause!` matches `S_TIMER` (install
into `TIMER_HANDLER` if not yet initialized, else fail) and `S_EXT`
(forward to `register_handler_common` with the classification bit
stripped, `scause & !INTC_IRQ_BASE`); any other cause panics. -/
def riscv.register_handler {H : Type} (s : RvState H) (scause : Nat) (h : H) :
    Outcome (Bool × RvState H) :=
  if scause = S_TIMER then
    if s.timer_handler.isNone then
      Outcome.ok (true, { s with timer_handler := some h })
    else
      Outcome.ok (false, s)
  else if scause = S_EXT then
    let r := register_handler_common s.common (Nat.land scause (2 ^ (USIZE_BITS - 1) - 1)) h
    Outcome.ok (r.1, { s with common := r.2 })
  else
    Outcome.fatal

/-- RISC-V `dispatch_irq`: `with_cause!` matches `S_TIMER` (invoke the
static `TIMER_HANDLER` directly; dereferencing an uninitialized `LazyInit`
is fatal) and `S_EXT` (call `dispatch_irq_common(0)`, the placeholder
line id); any other cause panics. -/
def riscv.dispatch_irq {H : Type} (s : RvState H) (scause : Nat) : Outcome (RvState H) :=
  if scause = S_TIMER then
    match s.timer_handler with
    | some h =>
        Outcome.ok { s with common := { s.common with
          trace := s.common.trace ++ [Event.invoke h] } }
    | none => Outcome.fatal
  else if scause = S_EXT then
    Outcome.ok { s with common := dispatch_irq_common s.common 0 }
  else
    Outcome.fatal

/-- Effects of the RISC-V SBI firmware interface. -/
inductive SbiCall where
  | sendIpi : Nat → SbiCall
  | clearIpi : SbiCall
  deriving DecidableEq

/-- RISC-V `get_and_acknowledge_interrupt`: `unimplemented!()`. -/
def riscv.get_and_acknowledge_interrupt : Outcome Nat := Outcome.fatal

/-- RISC-V `end_of_interrupt`: the `unimplemented!()` is commented out;
the body issues `sbi_rt::legacy::clear_ipi()` for every input. -/
def riscv.end_of_interrupt (_irq : Nat) : Outcome SbiCall :=
  Outcome.ok SbiCall.clearIpi

/-! ## aarch64 generic timer (`src/platform/aarch64_common/generic_timer.rs`) -/

/-- `crate::time::NANOS_PER_SEC`. -/
def NANOS_PER_SEC : Nat := 1000000000

/-- Modelled from the spec: the `int_ratio` crate's `Ratio` (the crate is
a dependency whose source is not under `src/`). Per the spec the timer
"derives tick/nanosecond ratios using fixed-point (integer
numerator/denominator) arithmetic" with "truncating fixed-point
multiplication". -/
structure FixedRate where
  num : Nat
  den : Nat
  deriving DecidableEq

/-- `Ratio::zero()`. -/
def FixedRate.zero : FixedRate := ⟨0, 0⟩

/-- `Ratio::new(numerator, denominator)`. -/
def FixedRate.new (numerator denominator : Nat) : FixedRate :=
  ⟨numerator, denominator⟩

/-- `Ratio::inverse()`: swap numerator and denominator. -/
def FixedRate.inverse (r : FixedRate) : FixedRate := ⟨r.den, r.num⟩

/-- `Ratio::mul_trunc(value)`: truncating fixed-point multiplication,
`value * numerator / denominator` rounded toward zero. -/
def FixedRate.mul_trunc (r : FixedRate) (value : Nat) : Nat :=
  value * r.num / r.den

/-- Timer calibration state established by `init_early`: the two
write-once ratio statics `CNTPCT_TO_NANOS_RATIO` / `NANOS_TO_CNTPCT_RATIO`. -/
structure TimerCalib where
  cntpct_to_nanos : FixedRate
  nanos_to_cntpct : FixedRate

/-- `init_early` (ratio part): reads `CNTFRQ_EL0` (`freq`) and sets
`CNTPCT_TO_NANOS_RATIO = Ratio::new(NANOS_PER_SEC as u32, freq as u32)`
and `NANOS_TO_CNTPCT_RATIO` to its inverse. The `as u32` casts truncate
modulo `2^32`. -/
def init_early (freq : Nat) : TimerCalib :=
  let r := FixedRate.new (NANOS_PER_SEC % 2 ^ 32) (freq % 2 ^ 32)
  { cntpct_to_nanos := r, nanos_to_cntpct := r.inverse }

/-- `ticks_to_nanos(ticks)`: `CNTPCT_TO_NANOS_RATIO.mul_trunc(ticks)`. -/
def ticks_to_nanos (c : TimerCalib) (ticks : Nat) : Nat :=
  c.cntpct_to_nanos.mul_trunc ticks

/-- `nanos_to_ticks(nanos)`: `NANOS_TO_CNTPCT_RATIO.mul_trunc(nanos)`. -/
def nanos_to_ticks (c : TimerCalib) (nanos : Nat) : Nat :=
  c.nanos_to_cntpct.mul_trunc nanos

/-- The write to `CNTP_TVAL_EL0` performed by `set_oneshot_timer`,
together with the condition checked by its `debug_assert!`. -/
structure OneshotWrite where
  tval : Nat
  debug_assert_ok : Bool
  deriving DecidableEq

/-- `set_oneshot_timer(deadline_ns)`: read `CNTPCT_EL0` (`cnptct`),
convert the deadline to ticks; when the deadline tick is still in the
future program the countdown with the difference (asserting it fits in
32 bits), otherwise program zero. -/
def set_oneshot_timer (c : TimerCalib) (cnptct deadline_ns : Nat) : OneshotWrite :=
  let cnptct_deadline := nanos_to_ticks c deadline_ns
  if cnptct < cnptct_deadline then
    let interval := cnptct_deadline - cnptct
    { tval := interval, debug_assert_ok := decide (interval ≤ 2 ^ 32 - 1) }
  else
    { tval := 0, debug_assert_ok := true }

/-- `TimerCtrlFlags::ENABLE` (bit 0 of `CNTP_CTL_EL0`). -/
def ENABLE : Nat := 1

/-- `TimerCtrlFlags::IMASK` (bit 1 of `CNTP_CTL_EL0`). -/
def IMASK : Nat := 2

/-- `TimerCtrlFlags::ISTATUS` (bit 2 of `CNTP_CTL_EL0`). -/
def ISTATUS : Nat := 4

/-- The timer registers touched by the periodic-reload path. -/
structure TimerRegs where
  cntp_ctl : Nat
  cntp_tval : Nat
  deriving DecidableEq

/-- `TimerCtrlFlags::from_bits_truncate`: keep only the defined bits. -/
def from_bits_truncate (bits : Nat) : Nat :=
  Nat.land bits (ENABLE + IMASK + ISTATUS)

/-- `bitflags` `contains`: all bits of the flag are set. -/
def flags_contains (c f : Nat) : Bool := Nat.land c f = f

/-- `bitflags` `insert`: set the flag's bits. -/
def flags_insert (c f : Nat) : Nat := Nat.lor c f

/-- `bitflags` `remove`: clear the flag's bits, `c & !f` with the
complement taken in the register's 64-bit width. -/
def flags_remove (c f : Nat) : Nat := Nat.land c (2 ^ 64 - 1 - f)

/-- `GenericTimer::clear_irq`: read `CNTP_CTL_EL0` (truncated to the
known flags); if `ISTATUS` is set, set `IMASK` and write the register
back; otherwise write nothing. -/
def GenericTimer.clear_irq (regs : TimerRegs) : TimerRegs :=
  let ctrl := from_bits_truncate regs.cntp_ctl
  if flags_contains ctrl ISTATUS then
    { regs with cntp_ctl := flags_insert ctrl IMASK }
  else
    regs

/-- `GenericTimer::reload_count`: read `CNTP_CTL_EL0` (truncated), set
`ENABLE`, clear `IMASK`, write the reload count to `CNTP_TVAL_EL0` and
the new control value to `CNTP_CTL_EL0`. -/
def GenericTimer.reload_count (reload : Nat) (regs : TimerRegs) : TimerRegs :=
  let ctrl := from_bits_truncate regs.cntp_ctl
  let ctrl := flags_remove (flags_insert ctrl ENABLE) IMASK
  { cntp_ctl := ctrl, cntp_tval := reload }

/-- `reset_timer`: `timer.clear_irq(); timer.reload_count()` with the
per-core stored reload count. -/
def reset_timer (reload : Nat) (regs : TimerRegs) : TimerRegs :=
  GenericTimer.reload_count reload (GenericTimer.clear_irq regs)

/-! ## GICv3 driver (`src/platform/aarch64_common/gic.rs`) -/

/-- The populated `GicV3Wrapper` handle: whether `setup()` ran and the
log of `enable_interrupt(intid, enabled)` calls. -/
structure GicV3Handle where
  setup_done : Bool
  enabled : List (Nat × Bool)
  deriving DecidableEq

/-- State of the `GIC_V3` global: `SpinNoIrq<Option<GicV3Wrapper>>`. -/
structure GicState where
  gic_v3 : Option GicV3Handle
  deriving DecidableEq

/-- The initial value of the `GIC_V3` static: `SpinNoIrq::new(None)`. -/
def GIC_V3_initial : GicState := ⟨none⟩

/-- GICv3 `set_enable`: lock the global, `.as_mut().unwrap()` the inner
`Option` (fatal when it is still `None`), then call
`enable_interrupt(IntId::from(irq_num as u32), enabled)`. -/
def gicv3.set_enable (s : GicState) (irq_num : Nat) (enabled : Bool) : Outcome GicState :=
  match s.gic_v3 with
  | none => Outcome.fatal
  | some g => Outcome.ok ⟨some { g with enabled := g.enabled ++ [(irq_num, enabled)] }⟩

/-- GICv3 `init_primary`: populate the `GIC_V3` global with a fresh
handle, run `setup()`, and enable the reschedule SGI (`IntId::sgi(3)`). -/
def gicv3.init_primary (_s : GicState) : GicState :=
  ⟨some { setup_done := true, enabled := [(3, true)] }⟩

/-- GICv3 `dispatch_irq`: `unimplemented!()`. -/
def gicv3.dispatch_irq (_unused : Nat) : Outcome Unit := Outcome.fatal

/-- GICv3 `register_handler`: `unimplemented!()`. -/
def gicv3.register_handler {H : Type} (_irq_num : Nat) (_handler : H) : Outcome Bool :=
  Outcome.fatal

/-! ## Claims -/

/-- C1: `register_handler_common(L, h)` returns true iff `L <
MAX_IRQ_COUNT` and no handler is installed at `L`; on success it installs
`h` in the table and strictly afterwards calls `set_enable(L, true)`; on
failure it emits a warning and neither installs nor unmasks anything. -/
theorem C1_register_handler_common {H : Type} (s : CommonState H) (L : Nat) (h : H) :
    ((register_handler_common s L h).1 = true ↔
        L < MAX_IRQ_COUNT ∧ s.table.slots L = none)
    ∧ ((register_handler_common s L h).1 = true →
        (register_handler_common s L h).2 =
          { table := ⟨Function.update s.table.slots L (some h)⟩,
            trace := s.trace ++ [Event.tableInstall L h, Event.setEnable L true] })
    ∧ ((register_handler_common s L h).1 = false →
        (register_handler_common s L h).2 =
          { table := s.table, trace := s.trace ++ [Event.warn] }) := by
  by_cases hL : L < MAX_IRQ_COUNT <;>
    cases hslot : s.table.slots L <;>
      simp [register_handler_common, HandlerTable.register_handler, hL, hslot]

/-- C1 witness: registering on an empty table at line 10 succeeds,
installs the handler and then unmasks the line. -/
theorem C1_register_handler_common_witness :
    ((register_handler_common (H := Nat) ⟨HandlerTable.new, []⟩ 10 7).1 = true ↔
        10 < MAX_IRQ_COUNT ∧ (HandlerTable.new (H := Nat)).slots 10 = none)
    ∧ ((register_handler_common (H := Nat) ⟨HandlerTable.new, []⟩ 10 7).1 = true →
        (register_handler_common (H := Nat) ⟨HandlerTable.new, []⟩ 10 7).2 =
          { table := ⟨Function.update (HandlerTable.new (H := Nat)).slots 10 (some 7)⟩,
            trace := [] ++ [Event.tableInstall 10 7, Event.setEnable 10 true] })
    ∧ ((register_handler_common (H := Nat) ⟨HandlerTable.new, []⟩ 10 7).1 = false →
        (register_handler_common (H := Nat) ⟨HandlerTable.new, []⟩ 10 7).2 =
          { table := HandlerTable.new, trace := [] ++ [Event.warn] }) :=
  C1_register_handler_common ⟨HandlerTable.new, []⟩ 10 7

/-- C2: for a line with a registered handler, dispatch invokes it exactly
once and the table lookup reports true; for an unregistered line the
lookup reports false and `dispatch_irq_common` leaves the table untouched
and emits one warning instead of panicking. -/
theorem C2_dispatch_irq_common {H : Type} (s : CommonState H) (L : Nat) :
    (∀ h : H, s.table.slots L = some h →
        (s.table.handle L).1 = true ∧
        dispatch_irq_common s L = { s with trace := s.trace ++ [Event.invoke h] })
    ∧ (s.table.slots L = none →
        (s.table.handle L).1 = false ∧
        dispatch_irq_common s L = { s with trace := s.trace ++ [Event.warn] }) := by
  constructor
  · intro h hslot
    simp [HandlerTable.handle, dispatch_irq_common, hslot]
  · intro hslot
    simp [HandlerTable.handle, dispatch_irq_common, hslot]

/-- C2 witness: with handler 7 registered at line 10, dispatching line 10
invokes it once; dispatching the empty line 40 warns. -/
theorem C2_dispatch_irq_common_witness :
    ((Function.update (fun _ => (none : Option Nat)) 10 (some 7)) 10 = some 7
      ∧ ((⟨⟨Function.update (fun _ => none) 10 (some 7)⟩, []⟩ :
            CommonState Nat).table.handle 10).1 = true
      ∧ dispatch_irq_common (H := Nat) ⟨⟨Function.update (fun _ => none) 10 (some 7)⟩, []⟩ 10 =
          { table := ⟨Function.update (fun _ => none) 10 (some 7)⟩,
            trace := [] ++ [Event.invoke 7] })
    ∧ ((Function.update (fun _ => (none : Option Nat)) 10 (some 7)) 40 = none
      ∧ ((⟨⟨Function.update (fun _ => none) 10 (some 7)⟩, []⟩ :
            CommonState Nat).table.handle 40).1 = false
      ∧ dispatch_irq_common (H := Nat) ⟨⟨Function.update (fun _ => none) 10 (some 7)⟩, []⟩ 40 =
          { table := ⟨Function.update (fun _ => none) 10 (some 7)⟩,
            trace := [] ++ [Event.warn] }) := by
  have h10 : (Function.update (fun _ => (none : Option Nat)) 10 (some 7)) 10 = some 7 := by
    simp
  have h40 : (Function.update (fun _ => (none : Option Nat)) 10 (some 7)) 40 = none := by
    simp
  exact ⟨⟨h10, (C2_dispatch_irq_common ⟨⟨Function.update (fun _ => none) 10 (some 7)⟩, []⟩ 10).1 7 h10⟩,
         ⟨h40, (C2_dispatch_irq_common ⟨⟨Function.update (fun _ => none) 10 (some 7)⟩, []⟩ 40).2 h40⟩⟩

/-- C3 counterexample: the supervisor software interrupt cause `S_SOFT`
belongs to the claim's known set {software, timer, external}, yet both
`dispatch_irq` and `register_handler` are fatal on it: only `S_TIMER`
and `S_EXT` are matched by `with_cause!`. -/
theorem C3_counterexample :
    riscv.dispatch_irq (H := Nat) ⟨some 0, ⟨HandlerTable.new, []⟩⟩ S_SOFT = Outcome.fatal
    ∧ riscv.register_handler (H := Nat) ⟨some 0, ⟨HandlerTable.new, []⟩⟩ S_SOFT 1 =
        Outcome.fatal :=
  ⟨rfl, rfl⟩

/-- C3 (amended): `register_handler` panics exactly when the cause is
neither `S_TIMER` nor `S_EXT`; `dispatch_irq` panics exactly when the
cause is neither `S_TIMER` nor `S_EXT`, or is `S_TIMER` with no timer
handler registered; the defined software-interrupt cause `S_SOFT` lies
outside the matched set. -/
theorem C3_cause_classification {H : Type} (s : RvState H) (h : H) (cause : Nat) :
    (riscv.register_handler s cause h = Outcome.fatal ↔
        cause ≠ S_TIMER ∧ cause ≠ S_EXT)
    ∧ (riscv.dispatch_irq s cause = Outcome.fatal ↔
        ((cause ≠ S_TIMER ∧ cause ≠ S_EXT) ∨ (cause = S_TIMER ∧ s.timer_handler = none)))
    ∧ (S_SOFT ≠ S_TIMER ∧ S_SOFT ≠ S_EXT) := by
  refine ⟨?_, ?_, by decide⟩
  · by_cases hT : cause = S_TIMER
    · subst hT
      cases htm : s.timer_handler <;>
        simp [riscv.register_handler, htm]
    · by_cases hE : cause = S_EXT
      · subst hE
        have hne : ¬(S_EXT = S_TIMER) := by decide
        simp [riscv.register_handler, hne]
      · simp [riscv.register_handler, hT, hE]
  · by_cases hT : cause = S_TIMER
    · subst hT
      cases htm : s.timer_handler <;>
        simp [riscv.dispatch_irq, htm]
    · by_cases hE : cause = S_EXT
      · subst hE
        have hne : ¬(S_EXT = S_TIMER) := by decide
        simp [riscv.dispatch_irq, hne]
      · simp [riscv.dispatch_irq, hT, hE]

/-- C6: the RISC-V timer handler lives in a dedicated static slot: the
first registration for `S_TIMER` succeeds and stores the handler, every
later one returns false leaving the first handler in place, and timer
dispatch invokes the stored handler directly, leaving the shared handler
table and its trace otherwise untouched. -/
theorem C6_timer_handler_static {H : Type} (s : RvState H) (h h0 : H) :
    (s.timer_handler = none →
      riscv.register_handler s S_TIMER h =
        Outcome.ok (true, { s with timer_handler := some h }))
    ∧ (s.timer_handler = some h0 →
      riscv.register_handler s S_TIMER h = Outcome.ok (false, s))
    ∧ (s.timer_handler = some h0 →
      riscv.dispatch_irq s S_TIMER =
        Outcome.ok { s with common := { s.common with
          trace := s.common.trace ++ [Event.invoke h0] } }) := by
  refine ⟨?_, ?_, ?_⟩ <;> intro hm <;>
    simp [riscv.register_handler, riscv.dispatch_irq, hm]

/-- C6 witness: on the concrete initial state registration for the timer
cause succeeds once; with handler 3 installed a second attempt fails and
dispatch invokes 3. -/
theorem C6_timer_handler_static_witness :
    riscv.register_handler (H := Nat) ⟨none, ⟨HandlerTable.new, []⟩⟩ S_TIMER 3 =
        Outcome.ok (true, { timer_handler := some 3, common := ⟨HandlerTable.new, []⟩ })
    ∧ riscv.register_handler (H := Nat) ⟨some 3, ⟨HandlerTable.new, []⟩⟩ S_TIMER 5 =
        Outcome.ok (false, ⟨some 3, ⟨HandlerTable.new, []⟩⟩)
    ∧ riscv.dispatch_irq (H := Nat) ⟨some 3, ⟨HandlerTable.new, []⟩⟩ S_TIMER =
        Outcome.ok ⟨some 3, ⟨HandlerTable.new, [] ++ [Event.invoke 3]⟩⟩ :=
  ⟨(C6_timer_handler_static ⟨none, ⟨HandlerTable.new, []⟩⟩ 3 0).1 rfl,
   (C6_timer_handler_static ⟨some 3, ⟨HandlerTable.new, []⟩⟩ 5 3).2.1 rfl,
   (C6_timer_handler_static ⟨some 3, ⟨HandlerTable.new, []⟩⟩ 5 3).2.2 rfl⟩

/-- C7: registering for the external cause forwards to
`register_handler_common` with the classification bit stripped
(`S_EXT & !INTC_IRQ_BASE = 9`), while external dispatch calls
`dispatch_irq_common` with the fixed placeholder line id 0. -/
theorem C7_external_forwarding {H : Type} (s : RvState H) (h : H) :
    Nat.land S_EXT (2 ^ (USIZE_BITS - 1) - 1) = 9
    ∧ riscv.register_handler s S_EXT h =
        Outcome.ok ((register_handler_common s.common 9 h).1,
          { s with common := (register_handler_common s.common 9 h).2 })
    ∧ riscv.dispatch_irq s S_EXT =
        Outcome.ok { s with common := dispatch_irq_common s.common 0 } := by
  have hne : ¬(S_EXT = S_TIMER) := by decide
  have hl : Nat.land S_EXT (2 ^ (USIZE_BITS - 1) - 1) = 9 := by decide
  exact ⟨hl, by simp [riscv.register_handler, hne, hl], by simp [riscv.dispatch_irq, hne]⟩

/-- C8 counterexample: the RISC-V `end_of_interrupt` does not panic — the
`unimplemented!()` in its body is commented out and it issues the SBI
`clear_ipi` call instead, for line 0 as for any other. -/
theorem C8_counterexample :
    riscv.end_of_interrupt 0 ≠ Outcome.fatal
    ∧ riscv.end_of_interrupt 0 = Outcome.ok SbiCall.clearIpi := by
  exact ⟨by decide, rfl⟩

/-- C8 (amended): the RISC-V `get_and_acknowledge_interrupt`, the GICv3
`dispatch_irq` and the GICv3 `register_handler` are fatal
(`unimplemented!`) for every input, while the RISC-V `end_of_interrupt`
is not fatal: it clears the pending IPI through the SBI firmware
interface for every input. -/
theorem C8_unimplemented_stubs {H : Type} (irq n m : Nat) (h : H) :
    riscv.get_and_acknowledge_interrupt = Outcome.fatal
    ∧ gicv3.dispatch_irq n = Outcome.fatal
    ∧ gicv3.register_handler m h = Outcome.fatal
    ∧ riscv.end_of_interrupt irq = Outcome.ok SbiCall.clearIpi :=
  ⟨rfl, rfl, rfl, rfl⟩

/-- C10: the GICv3 controller handle starts out as `None` and is
populated by `init_primary`; `set_enable` on the un-initialized state
unwraps the empty option and is fatal, for any line and enable value. -/
theorem C10_set_enable_before_init (irq : Nat) (en : Bool) :
    GIC_V3_initial.gic_v3 = none
    ∧ gicv3.set_enable GIC_V3_initial irq en = Outcome.fatal
    ∧ ((gicv3.init_primary GIC_V3_initial).gic_v3).isSome = true :=
  ⟨rfl, rfl, rfl⟩

/-- C4: `set_oneshot_timer` converts the deadline to ticks; a deadline
tick at or before the current tick programs the countdown with zero,
otherwise the countdown gets the positive difference and the
`debug_assert!` checks that it fits in 32 bits. -/
theorem C4_set_oneshot_timer (c : TimerCalib) (cnptct deadline_ns : Nat) :
    (nanos_to_ticks c deadline_ns ≤ cnptct →
      set_oneshot_timer c cnptct deadline_ns = { tval := 0, debug_assert_ok := true })
    ∧ (cnptct < nanos_to_ticks c deadline_ns →
      set_oneshot_timer c cnptct deadline_ns =
        { tval := nanos_to_ticks c deadline_ns - cnptct,
          debug_assert_ok := decide (nanos_to_ticks c deadline_ns - cnptct ≤ 2 ^ 32 - 1) }) := by
  constructor
  · intro hle
    simp [set_oneshot_timer, Nat.not_lt.mpr hle]
  · intro hlt
    simp [set_oneshot_timer, hlt]

/-- C4 witness: at 62.5 MHz a deadline of 3200 ns is tick 200; with the
counter at 300 the countdown is armed at zero, with the counter at 100 it
is armed at 100 ticks. -/
theorem C4_set_oneshot_timer_witness :
    set_oneshot_timer (init_early 62500000) 300 3200 = { tval := 0, debug_assert_ok := true }
    ∧ set_oneshot_timer (init_early 62500000) 100 3200 =
        { tval := nanos_to_ticks (init_early 62500000) 3200 - 100,
          debug_assert_ok :=
            decide (nanos_to_ticks (init_early 62500000) 3200 - 100 ≤ 2 ^ 32 - 1) } :=
  ⟨(C4_set_oneshot_timer (init_early 62500000) 300 3200).1 (by decide),
   (C4_set_oneshot_timer (init_early 62500000) 100 3200).2 (by decide)⟩

/-- Truncating fixed-point round trip: multiplying by `N / f` and back by
`f / N` with truncation loses at most one unit when `0 < f ≤ N`. -/
theorem trunc_roundtrip (N f T : Nat) (hf : 0 < f) (hfN : f ≤ N) :
    T * N / f * f / N ≤ T ∧ T ≤ T * N / f * f / N + 1 := by
  have hN : 0 < N := lt_of_lt_of_le hf hfN
  constructor
  · have h1 : T * N / f * f ≤ T * N := Nat.div_mul_le_self _ _
    calc T * N / f * f / N ≤ T * N / N := Nat.div_le_div_right h1
    _ = T := Nat.mul_div_cancel T hN
  · rcases Nat.eq_zero_or_pos T with hT | hT
    · simp [hT]
    · have hdm := Nat.div_add_mod (T * N) f
      have hml : T * N % f < f := Nat.mod_lt _ hf
      have hc : f * (T * N / f) = T * N / f * f := Nat.mul_comm _ _
      have h3 : T * N < T * N / f * f + f := by linarith
      have h4 : (T - 1) * N + N = T * N := by
        calc (T - 1) * N + N = ((T - 1) + 1) * N := by ring
        _ = T * N := by rw [Nat.sub_add_cancel hT]
      have key : (T - 1) * N ≤ T * N / f * f := by linarith
      have h5 : T - 1 ≤ T * N / f * f / N := by
        have h6 := Nat.div_le_div_right (c := N) key
        rwa [Nat.mul_div_cancel (T - 1) hN] at h6
      omega

/-- C5: with the calibration that `init_early` derives from a clock
frequency (positive and at most one tick per nanosecond), the
tick-to-nanosecond round trip returns the original tick count within one
unit of truncation error, and both conversions are monotonic. -/
theorem C5_tick_nanos_roundtrip (freq : Nat) (hpos : 0 < freq)
    (hle : freq ≤ NANOS_PER_SEC) :
    (∀ T, nanos_to_ticks (init_early freq) (ticks_to_nanos (init_early freq) T) ≤ T
        ∧ T ≤ nanos_to_ticks (init_early freq) (ticks_to_nanos (init_early freq) T) + 1)
    ∧ (∀ a b, a ≤ b →
        ticks_to_nanos (init_early freq) a ≤ ticks_to_nanos (init_early freq) b)
    ∧ (∀ a b, a ≤ b →
        nanos_to_ticks (init_early freq) a ≤ nanos_to_ticks (init_early freq) b) := by
  have hflt : freq % 2 ^ 32 = freq :=
    Nat.mod_eq_of_lt (lt_of_le_of_lt hle (by norm_num [NANOS_PER_SEC]))
  have hNlt : NANOS_PER_SEC % 2 ^ 32 = NANOS_PER_SEC := by norm_num [NANOS_PER_SEC]
  simp only [nanos_to_ticks, ticks_to_nanos, init_early, FixedRate.new, FixedRate.inverse,
    FixedRate.mul_trunc, hflt, hNlt]
  refine ⟨fun T => trunc_roundtrip NANOS_PER_SEC freq T hpos hle, ?_, ?_⟩
  · intro a b hab
    exact Nat.div_le_div_right (Nat.mul_le_mul_right _ hab)
  · intro a b hab
    exact Nat.div_le_div_right (Nat.mul_le_mul_right _ hab)

/-- C5 witness: at the boot-calibration frequency 62.5 MHz the round trip
at tick count 317 is within one unit and the conversions are ordered at
5 ≤ 9. -/
theorem C5_tick_nanos_roundtrip_witness :
    (nanos_to_ticks (init_early 62500000)
        (ticks_to_nanos (init_early 62500000) 317) ≤ 317
      ∧ 317 ≤ nanos_to_ticks (init_early 62500000)
          (ticks_to_nanos (init_early 62500000) 317) + 1)
    ∧ ticks_to_nanos (init_early 62500000) 5 ≤ ticks_to_nanos (init_early 62500000) 9 :=
  ⟨(C5_tick_nanos_roundtrip 62500000 (by decide) (by decide)).1 317,
   (C5_tick_nanos_roundtrip 62500000 (by decide) (by decide)).2.1 5 9 (by decide)⟩

/-- C9: when `ISTATUS` is clear, `clear_irq` leaves the control register
unchanged (in particular it does not set `IMASK`), and `reset_timer`
then reloads the per-core count and re-enables the timer with `ENABLE`
set and `IMASK` clear. -/
theorem C9_reset_timer_no_remask (regs : TimerRegs) (reload : Nat)
    (hstatus : flags_contains (from_bits_truncate regs.cntp_ctl) ISTATUS = false) :
    GenericTimer.clear_irq regs = regs
    ∧ reset_timer reload regs =
        { cntp_ctl := flags_remove (flags_insert (from_bits_truncate regs.cntp_ctl) ENABLE) IMASK,
          cntp_tval := reload }
    ∧ Nat.land (reset_timer reload regs).cntp_ctl IMASK = 0
    ∧ Nat.land (reset_timer reload regs).cntp_ctl ENABLE = ENABLE := by
  have h1 : GenericTimer.clear_irq regs = regs := by
    simp [GenericTimer.clear_irq, hstatus]
  have h2 : reset_timer reload regs =
      { cntp_ctl := flags_remove (flags_insert (from_bits_truncate regs.cntp_ctl) ENABLE) IMASK,
        cntp_tval := reload } := by
    simp [reset_timer, h1, GenericTimer.reload_count]
  have hm : from_bits_truncate regs.cntp_ctl ≤ 7 := Nat.and_le_right
  refine ⟨h1, h2, ?_, ?_⟩ <;> rw [h2] <;> dsimp only <;>
    set m := from_bits_truncate regs.cntp_ctl with hmdef <;>
      clear hmdef h1 h2 hstatus <;> interval_cases m <;> decide

/-- C9 witness: with the control register holding only `ENABLE` (so
`ISTATUS` clear), `reset_timer 5` keeps the line unmasked and programs
the reload count. -/
theorem C9_reset_timer_no_remask_witness :
    GenericTimer.clear_irq ⟨1, 0⟩ = ⟨1, 0⟩
    ∧ reset_timer 5 ⟨1, 0⟩ =
        { cntp_ctl := flags_remove (flags_insert (from_bits_truncate 1) ENABLE) IMASK,
          cntp_tval := 5 }
    ∧ Nat.land (reset_timer 5 ⟨1, 0⟩).cntp_ctl IMASK = 0
    ∧ Nat.land (reset_timer 5 ⟨1, 0⟩).cntp_ctl ENABLE = ENABLE :=
  C9_reset_timer_no_remask ⟨1, 0⟩ 5 (by decide)

end Axhal
